import Mathlib

/-!
# Shallow embedding of the crmprov2 WhatsApp ingestion pipeline

This file embeds, in Lean 4, the message-ingestion core of the repository:

* `src/server/whatsapp/webhook.ts` — signature verification, the webhook
  status handler (ChatMessage status patches and campaign-recipient
  counter reconciliation) and the incoming-message block of the cloud
  (`api`) path;
* `src/server/services/message-handler.ts` — `MessageHandler.handleIncomingMessage`,
  the QR-bridge (`qr`) path.

Database tables are embedded as lists of records inside a `DBState`;
drizzle `select ... limit 1` becomes `List.find?`, `update ... where`
becomes `List.map` guarded by the `where` predicate, `insert` appends a
record (autoincrement ids are modelled by explicit counters).  JavaScript
truthiness (`x ? a : b`, `x || y`, `x ?? y`) is modelled explicitly where
the source relies on it.  Wall-clock time (`new Date()`) is an explicit
`now : Nat` parameter (milliseconds); provider timestamps arrive in
seconds and are multiplied by 1000 exactly as in the source.
-/

/-- JavaScript truthiness for an optional string: `undefined`, `null` and
`""` are falsy.  `truthyOpt o` is `some s` exactly when `o = some s` with
`s` non-empty, mirroring `x ? String(x) : null`. -/
def truthyOpt (o : Option String) : Option String :=
  match o with
  | some s => if s = "" then none else some s
  | none => none

/-- Boolean test for `pfx` being a prefix of `l` (used by `hasSub`). -/
def pfxOf : List Char → List Char → Bool
  | [], _ => true
  | _ :: _, [] => false
  | a :: as, b :: bs => a == b && pfxOf as bs

/-- Boolean substring test on character lists. -/
def hasSub (sub : List Char) : List Char → Bool
  | [] => pfxOf sub []
  | l@(_ :: rest) => pfxOf sub l || hasSub sub rest

/-- JavaScript `s.includes(sub)`. -/
def strIncludes (s sub : String) : Bool :=
  hasSub sub.toList s.toList

/-- JavaScript `s.startsWith(pre)`. -/
def strStartsWith (s pre : String) : Bool :=
  pfxOf pre.toList s.toList

/-- Value of a hexadecimal digit, `none` for a non-hex character. -/
def hexVal (c : Char) : Option Nat :=
  if '0' ≤ c ∧ c ≤ '9' then some (c.toNat - '0'.toNat)
  else if 'a' ≤ c ∧ c ≤ 'f' then some (c.toNat - 'a'.toNat + 10)
  else if 'A' ≤ c ∧ c ≤ 'F' then some (c.toNat - 'A'.toNat + 10)
  else none

/-- Node `Buffer.from(s, "hex")`: decode pairs of hex digits into bytes,
stopping at the first invalid pair (a trailing odd digit is dropped). -/
def hexDecode : List Char → List Nat
  | a :: b :: rest =>
    match hexVal a, hexVal b with
    | some x, some y => (x * 16 + y) :: hexDecode rest
    | _, _ => []
  | _ => []

/-- Node `crypto.timingSafeEqual` on byte buffers: `none` models the
exception thrown when the lengths differ, `some b` the comparison
result. -/
def timingSafeEqualModel (a b : List Nat) : Option Bool :=
  if a.length = b.length then some (a == b) else none

/-- Embedding of `verifySignature` (webhook.ts lines 9–25).  `secret` is
`ENV.whatsappAppSecret` (absent or empty means "not configured", JS
falsiness); `hmacHex` abstracts `crypto.createHmac("sha256", secret)
.update(raw).digest("hex")` — an arbitrary function from secret and raw
body bytes to a hex digest string; `header` is the
`x-hub-signature-256` header, `rawBody` the raw request body bytes. -/
def verifySignature (hmacHex : String → List Nat → String)
    (secret : Option String) (header : Option String)
    (rawBody : Option (List Nat)) : Bool :=
  match truthyOpt secret with
  | none => true
  | some sec =>
    let h := header.getD ""
    if ¬ strStartsWith h "sha256=" then false
    else
      let signature := h.toList.drop "sha256=".toList.length
      match rawBody with
      | none => false
      | some raw =>
        if raw.length = 0 then false
        else
          let expected := hmacHex sec raw
          (timingSafeEqualModel (hexDecode signature) (hexDecode expected.toList)).getD false

/-! ## Data model (drizzle tables, embedded as record lists) -/

/-- A row of the `leads` table (only the columns this pipeline touches). -/
structure Lead where
  id : Nat
  name : String
  phone : String
  country : String
  pipelineStageId : Option Nat
  kanbanOrder : Int
  source : String
  lastContactedAt : Option Nat
  deriving Repr, DecidableEq

/-- A row of the `conversations` table. -/
structure Conversation where
  id : Nat
  channel : String
  whatsappNumberId : Nat
  whatsappConnectionType : String
  externalChatId : Option String
  leadId : Option Nat
  contactPhone : String
  contactName : Option String
  unreadCount : Nat
  lastMessageAt : Option Nat
  status : String
  deriving Repr, DecidableEq

/-- A row of the `chatMessages` table. -/
structure ChatMessage where
  conversationId : Nat
  whatsappNumberId : Nat
  whatsappConnectionType : String
  direction : String
  messageType : String
  content : Option String
  mediaUrl : Option String := none
  mediaMimeType : Option String := none
  latitude : Option Int := none
  longitude : Option Int := none
  locationName : Option String := none
  status : String
  whatsappMessageId : Option String
  sentAt : Option Nat := none
  deliveredAt : Option Nat := none
  readAt : Option Nat := none
  deriving Repr, DecidableEq

/-- A row of the `pipelines` table. -/
structure Pipeline where
  id : Nat
  isDefault : Bool
  deriving Repr, DecidableEq

/-- A row of the `pipelineStages` table. -/
structure PipelineStage where
  id : Nat
  pipelineId : Nat
  order : Int
  deriving Repr, DecidableEq

/-- A row of the `campaignRecipients` table. -/
structure CampaignRecipient where
  id : Nat
  campaignId : Nat
  whatsappMessageId : Option String
  status : Option String
  sentAt : Option Nat := none
  deliveredAt : Option Nat := none
  readAt : Option Nat := none
  errorMessage : Option String := none
  deriving Repr, DecidableEq

/-- A row of the `campaigns` table (counter columns only). -/
structure Campaign where
  id : Nat
  messagesDelivered : Nat
  messagesRead : Nat
  messagesFailed : Nat
  deriving Repr, DecidableEq

/-- A row of the `whatsappConnections` table (routing column only). -/
structure WhatsappConnection where
  phoneNumberId : String
  whatsappNumberId : Nat
  deriving Repr, DecidableEq

/-- The database, embedded as lists of rows plus autoincrement counters
for the two tables whose generated ids the source reads back
(`$returningId` / `insertId`). -/
structure DBState where
  leads : List Lead
  conversations : List Conversation
  chatMessages : List ChatMessage
  pipelines : List Pipeline
  pipelineStages : List PipelineStage
  campaignRecipients : List CampaignRecipient
  campaigns : List Campaign
  whatsappConnections : List WhatsappConnection
  nextLeadId : Nat
  nextConvId : Nat
  deriving Repr, DecidableEq

/-! ## Webhook status handler (webhook.ts lines 90–168) -/

/-- A raw element of `value.statuses` in the webhook payload. -/
structure StatusEvent where
  id : Option String
  status : Option String
  deriving Repr, DecidableEq

/-- The `patch` object built from the status string (webhook.ts lines
106–119), applied to a `ChatMessage` row.  An unrecognized status leaves
the patch empty, so no `chatMessages` update runs (`none`). -/
def statusPatch (status : String) (now : Nat) : Option (ChatMessage → ChatMessage) :=
  if status = "sent" then
    some (fun cm => { cm with status := "sent", sentAt := some now })
  else if status = "delivered" then
    some (fun cm => { cm with status := "delivered", deliveredAt := some now })
  else if status = "read" then
    some (fun cm => { cm with status := "read", readAt := some now })
  else if status = "failed" then
    some (fun cm => { cm with status := "failed" })
  else none

/-- Campaign-recipient reconciliation for one status event (webhook.ts
lines 139–167): given the recipient row found by `whatsappMessageId` and
the current state, apply the guarded transition and counter increments. -/
def applyCampaignStatus (status : String) (now : Nat) (rec : CampaignRecipient)
    (s : DBState) : DBState :=
  let current := rec.status.getD "pending"
  let setRec := fun (f : CampaignRecipient → CampaignRecipient) (st : DBState) =>
    { st with campaignRecipients :=
        st.campaignRecipients.map (fun r => if r.id == rec.id then f r else r) }
  let bumpCampaign := fun (f : Campaign → Campaign) (st : DBState) =>
    { st with campaigns :=
        st.campaigns.map (fun c => if c.id == rec.campaignId then f c else c) }
  if status = "delivered" then
    if current ≠ "delivered" ∧ current ≠ "read" then
      bumpCampaign (fun c => { c with messagesDelivered := c.messagesDelivered + 1 })
        (setRec (fun r => { r with status := some "delivered", deliveredAt := some now }) s)
    else s
  else if status = "read" then
    if current ≠ "read" then
      let s1 := setRec (fun r => { r with status := some "read", readAt := some now }) s
      let s2 := if current ≠ "delivered" then
          bumpCampaign (fun c => { c with messagesDelivered := c.messagesDelivered + 1 }) s1
        else s1
      bumpCampaign (fun c => { c with messagesRead := c.messagesRead + 1 }) s2
    else s
  else if status = "failed" then
    if current ≠ "failed" then
      bumpCampaign (fun c => { c with messagesFailed := c.messagesFailed + 1 })
        (setRec (fun r =>
          { r with status := some "failed", errorMessage := some "Meta status failed" }) s)
    else s
  else if status = "sent" then
    if current = "pending" then
      setRec (fun r => { r with status := some "sent", sentAt := some now }) s
    else s
  else s

/-- One iteration of the webhook status loop (webhook.ts lines 90–167):
`msgId = String(st.id ?? "")` and `status = String(st.status ?? "")`; an
empty id is skipped; the patch is applied to every `chatMessages` row
with that `whatsappMessageId` (no guard on the current status); then the
first campaign recipient linked by `whatsappMessageId`, if any, is
reconciled. -/
def applyStatusUpdate (now : Nat) (ev : StatusEvent) (s : DBState) : DBState :=
  let msgId := ev.id.getD ""
  let status := ev.status.getD ""
  if msgId = "" then s
  else
    let s1 :=
      match statusPatch status now with
      | none => s
      | some patch =>
        { s with chatMessages :=
            s.chatMessages.map (fun cm =>
              if cm.whatsappMessageId == some msgId then patch cm else cm) }
    match s1.campaignRecipients.find? (fun r => r.whatsappMessageId == some msgId) with
    | none => s1
    | some rec => applyCampaignStatus status now rec s1

/-! ## Webhook incoming-message block (webhook.ts lines 172–296) -/

/-- A raw element of `value.messages`.  `rawJson` stands for
`JSON.stringify(m)` — the serialization of the whole raw object, carried
as a field since the embedding does not re-serialize; `contactsJson`
stands for `JSON.stringify(m.contacts ?? [])`; the `media*` fields stand
for `m[msgType]?.caption / .id / .mime_type` (the object keyed by the
message's own type string). -/
structure ApiMessage where
  type : Option String := none
  id : Option String := none
  from? : Option String := none
  textBody : Option String := none
  mediaCaption : Option String := none
  mediaId : Option String := none
  mediaMime : Option String := none
  locLatitude : Option Int := none
  locLongitude : Option Int := none
  locName : Option String := none
  locAddress : Option String := none
  contactsJson : String := "[]"
  rawJson : String := "\x7b\x7d"
  deriving Repr, DecidableEq

/-- One `change.value` of the webhook payload.  `contactWaId` and
`contactProfileName` stand for `value.contacts[0]?.wa_id` and
`value.contacts[0]?.profile?.name`; a non-array `statuses`/`messages`
is already normalized to `[]` (`Array.isArray(...) ? ... : []`). -/
structure ChangeValue where
  phoneNumberId : Option String := none
  statuses : List StatusEvent := []
  messages : List ApiMessage := []
  contactWaId : Option String := none
  contactProfileName : Option String := none
  deriving Repr, DecidableEq

/-- Normalization of one raw webhook message into the inserted
`chatMessages` row (webhook.ts lines 223–274): the `msgType` dispatch,
the truthiness-guarded field extraction, and the fallback branch that
stores the serialized raw payload as text. -/
def normalizeApiMessage (now : Nat) (wnid conversationId : Nat)
    (m : ApiMessage) : ChatMessage :=
  let msgType := m.type.getD "text"
  let waMsgId := truthyOpt m.id
  let base : ChatMessage :=
    { conversationId := conversationId
      whatsappNumberId := wnid
      whatsappConnectionType := "api"
      direction := "inbound"
      messageType := "text"
      content := none
      status := "delivered"
      whatsappMessageId := waMsgId
      deliveredAt := some now }
  if msgType = "text" then
    { base with messageType := "text", content := truthyOpt m.textBody }
  else if msgType = "image" ∨ msgType = "video" ∨ msgType = "audio" ∨
      msgType = "document" ∨ msgType = "sticker" then
    { base with
      messageType := msgType
      content := truthyOpt m.mediaCaption
      mediaUrl := truthyOpt m.mediaId
      mediaMimeType := truthyOpt m.mediaMime }
  else if msgType = "location" then
    { base with
      messageType := "location"
      latitude := m.locLatitude
      longitude := m.locLongitude
      locationName := truthyOpt m.locName
      content := truthyOpt m.locAddress }
  else if msgType = "contacts" then
    { base with messageType := "contact", content := some m.contactsJson }
  else
    { base with messageType := "text", content := some m.rawJson }

/-- The per-message insert loop of the webhook (webhook.ts lines
223–295): each raw message is normalized and appended to `chatMessages`
— nothing else in the state is touched (the integration dispatch is a
fire-and-forget side effect with no database footprint). -/
def insertApiMessages (now : Nat) (wnid conversationId : Nat)
    (ms : List ApiMessage) (s : DBState) : DBState :=
  ms.foldl (fun st m =>
    { st with chatMessages :=
        st.chatMessages ++ [normalizeApiMessage now wnid conversationId m] }) s

/-- The conversation update patch on the api path (webhook.ts lines
213–220): bump `lastMessageAt` to wall-clock now, `unreadCount + 1`
(SQL increment) and overwrite `contactName` only when one was provided
— the `status` column is not part of the patch. -/
def apiMergeConv (contactName : Option String) (now : Nat)
    (c : Conversation) : Conversation :=
  { c with
    contactName := match contactName with
      | some n => some n
      | none => c.contactName
    lastMessageAt := some now
    unreadCount := c.unreadCount + 1 }

/-- The incoming-messages block of one webhook change (webhook.ts lines
172–296), entered only when `value.messages` is non-empty: resolve the
contact phone (`contact?.wa_id ?? messages[0]?.from ?? ""`, skip when
empty), find the conversation by (whatsappNumberId, contactPhone), seed
it with `unreadCount = 1` when absent or patch it with `apiMergeConv`
when present, then run the per-message insert loop. -/
def processIncomingMessages (now : Nat) (wnid : Nat) (v : ChangeValue)
    (s : DBState) : DBState :=
  let contactPhone :=
    ((v.contactWaId).or ((v.messages.head?).bind ApiMessage.from?)).getD ""
  if contactPhone = "" then s
  else
    let contactName := truthyOpt v.contactProfileName
    match s.conversations.find? (fun c =>
        c.whatsappNumberId == wnid && c.contactPhone == contactPhone) with
    | none =>
      let newConv : Conversation :=
        { id := s.nextConvId
          channel := "whatsapp"
          whatsappNumberId := wnid
          whatsappConnectionType := "api"
          externalChatId := none
          leadId := none
          contactPhone := contactPhone
          contactName := contactName
          unreadCount := 1
          lastMessageAt := some now
          status := "active" }
      let s1 := { s with conversations := s.conversations ++ [newConv],
                         nextConvId := s.nextConvId + 1 }
      insertApiMessages now wnid newConv.id v.messages s1
    | some c =>
      let s1 := { s with conversations :=
          s.conversations.map (fun x =>
            if x.id == c.id then apiMergeConv contactName now x else x) }
      insertApiMessages now wnid c.id v.messages s1

/-- Processing of one webhook `change` (webhook.ts lines 68–297):
resolve `phone_number_id` to a connected number (skip the change when
missing or unknown), apply all status updates in order, then — when the
change carries messages — run the incoming-messages block. -/
def processChange (now : Nat) (v : ChangeValue) (s : DBState) : DBState :=
  match v.phoneNumberId with
  | none => s
  | some pid =>
    match s.whatsappConnections.find? (fun c => c.phoneNumberId == pid) with
    | none => s
    | some conn =>
      let wnid := conn.whatsappNumberId
      let s1 :=
        if v.statuses.length > 0 then
          v.statuses.foldl (fun st ev => applyStatusUpdate now ev st) s
        else s
      if v.messages.length > 0 then processIncomingMessages now wnid v s1
      else s1

/-! ## QR-bridge handler (message-handler.ts, `MessageHandler.handleIncomingMessage`) -/

/-- A media sub-object of a Baileys message (`imageMessage` /
`videoMessage`), of which the handler only reads the caption. -/
structure QrMedia where
  caption : Option String := none
  deriving Repr, DecidableEq

/-- The `message.message` content object of a Baileys message: the
fields the handler inspects.  `audioMessage`/`documentMessage`/
`stickerMessage` matter only by presence. -/
structure QrContent where
  conversation : Option String := none
  extendedTextMessageText : Option String := none
  imageMessage : Option QrMedia := none
  videoMessage : Option QrMedia := none
  audioMessage : Bool := false
  documentMessage : Bool := false
  stickerMessage : Bool := false
  deriving Repr, DecidableEq

/-- The `message.key` object: remote identity, direction flag and the
provider message id. -/
structure QrKey where
  remoteJid : Option String
  fromMe : Bool := false
  id : String
  deriving Repr, DecidableEq

/-- A raw QR-bridge message object.  `messageTimestamp` is in seconds,
as delivered by the bridge.  `rawJson` stands for the JSON serialization
of the whole raw object (never computed by the handler itself; carried
only so the stored content can be compared against it). -/
structure QrMessage where
  key : QrKey
  message : Option QrContent := none
  messageTimestamp : Option Nat := none
  pushName : Option String := none
  rawJson : String := "\x7b\x7d"
  deriving Repr, DecidableEq

/-- The `text` extraction chain (message-handler.ts lines 30–39): a JS
`||` cascade over caption/body fields, then per-type placeholders, with
final fallback `"Media/Unknown"`. -/
def qrText (m : QrMessage) : String :=
  match m.message with
  | none => "Media/Unknown"
  | some c =>
    ((truthyOpt c.conversation).getD
    ((truthyOpt c.extendedTextMessageText).getD
    ((truthyOpt (c.imageMessage.bind QrMedia.caption)).getD
    ((truthyOpt (c.videoMessage.bind QrMedia.caption)).getD
    (if c.imageMessage.isSome then "Image"
     else if c.videoMessage.isSome then "Video"
     else if c.audioMessage then "Audio"
     else if c.documentMessage then "Document"
     else if c.stickerMessage then "Sticker"
     else "Media/Unknown")))))

/-- The message-type detection (message-handler.ts lines 157–162):
defaults to `text`, switched by presence of a media sub-object. -/
def qrMsgType (m : QrMessage) : String :=
  match m.message with
  | none => "text"
  | some c =>
    if c.imageMessage.isSome then "image"
    else if c.videoMessage.isSome then "video"
    else if c.audioMessage then "audio"
    else if c.documentMessage then "document"
    else if c.stickerMessage then "sticker"
    else "text"

/-- Timestamp extraction (message-handler.ts line 42):
`message.messageTimestamp ? new Date(Number(...) * 1000) : new Date()` —
a missing or zero (JS-falsy) timestamp falls back to wall-clock now;
otherwise seconds are converted to milliseconds. -/
def qrTimestamp (m : QrMessage) (now : Nat) : Nat :=
  match m.messageTimestamp with
  | some t => if t = 0 then now else t * 1000
  | none => now

/-- Phone extraction (message-handler.ts line 46):
`'+' + jid.split('@')[0]` — the characters before the first `@` (the
whole string when there is none). -/
def qrPhone (jid : String) : String :=
  "+" ++ String.mk (jid.toList.takeWhile (fun c => c ≠ '@'))

/-- The idempotency lookup (message-handler.ts lines 19–22): does a
`chatMessages` row with this provider id and connection type `qr`
already exist? -/
def qrDup (s : DBState) (msgId : String) : Bool :=
  s.chatMessages.any (fun cm =>
    cm.whatsappMessageId == some msgId && cm.whatsappConnectionType == "qr")

/-- One step of the SQL `max(kanbanOrder)` aggregate. -/
def maxKanbanStep (acc : Option Int) (l : Lead) : Option Int :=
  match acc with
  | none => some l.kanbanOrder
  | some m => some (max m l.kanbanOrder)

/-- Maximum `kanbanOrder` of a list of leads, `none` on the empty list —
the SQL `max(...)` aggregate, which is `NULL` over no rows. -/
def maxKanban (ls : List Lead) : Option Int :=
  ls.foldl maxKanbanStep none

/-- First stage of a pipeline by ascending explicit `order`
(`orderBy(asc(pipelineStages.order)).limit(1)`). -/
def firstStageByOrder (sts : List PipelineStage) : Option PipelineStage :=
  sts.foldl (fun acc st =>
    match acc with
    | none => some st
    | some b => if st.order < b.order then some st else acc) none

/-- Default-pipeline placement for a new lead (message-handler.ts lines
67–84): stage id of the first stage of the default pipeline (when both
exist) and the next kanban order
`((maxRows[0])?.max ?? 0) + 1` — note the `?? 0` coalescing, which makes
an empty stage yield order `0 + 1 = 1`, while a missing pipeline or
stage leaves the initial `(null, 0)`. -/
def defaultStagePlacement (s : DBState) : Option Nat × Int :=
  match s.pipelines.find? (fun p => p.isDefault) with
  | none => (none, 0)
  | some p =>
    match firstStageByOrder (s.pipelineStages.filter (fun st => st.pipelineId == p.id)) with
    | none => (none, 0)
    | some st =>
      let inStage := s.leads.filter (fun l => l.pipelineStageId == some st.id)
      (some st.id, (maxKanban inStage).getD 0 + 1)

/-- Find-or-create of the lead (message-handler.ts lines 50–99): lookup
by exact phone; if found, bump `lastContactedAt` to now only on a
`notify` event; if not found, create the lead with the default-pipeline
placement, `source = "whatsapp_inbound"` and `lastContactedAt` set to
the message timestamp.  Returns the lead id and the updated state. -/
def resolveLead (phone contactName : String) (notify : Bool)
    (now messageTimestamp : Nat) (s : DBState) : Nat × DBState :=
  match s.leads.find? (fun l => l.phone == phone) with
  | some l =>
    if notify then
      (l.id, { s with leads := s.leads.map (fun x =>
        if x.id == l.id then { x with lastContactedAt := some now } else x) })
    else (l.id, s)
  | none =>
    let placement := defaultStagePlacement s
    let newLead : Lead :=
      { id := s.nextLeadId
        name := if contactName ≠ "Unknown" then contactName else phone
        phone := phone
        country := "Unknown"
        pipelineStageId := placement.1
        kanbanOrder := placement.2
        source := "whatsapp_inbound"
        lastContactedAt := some messageTimestamp }
    (s.nextLeadId, { s with leads := s.leads ++ [newLead],
                            nextLeadId := s.nextLeadId + 1 })

/-- The conversation update patch on the qr path (message-handler.ts
lines 116–137): a live (`notify`) non-`fromMe` message bumps the unread
counter, stamps wall-clock now and revives the conversation to
`active`; a history (`append`) or `fromMe` message only advances
`lastMessageAt` when the message timestamp is strictly newer (or the
column was null). -/
def qrMergeConv (notify fromMe : Bool) (now messageTimestamp : Nat)
    (c : Conversation) : Conversation :=
  if notify ∧ ¬ fromMe then
    { c with unreadCount := c.unreadCount + 1
             lastMessageAt := some now
             status := "active" }
  else if ¬ notify ∨ fromMe then
    match c.lastMessageAt with
    | none => { c with lastMessageAt := some messageTimestamp }
    | some t =>
      if messageTimestamp > t then { c with lastMessageAt := some messageTimestamp }
      else c
  else c

/-- Find-or-create of the qr conversation (message-handler.ts lines
102–153): lookup by (leadId, whatsappNumberId, channel `whatsapp`,
connection type `qr`, externalChatId = jid); merge with `qrMergeConv`
when found, otherwise insert with `unreadCount` seeded to 1 only for a
live non-`fromMe` event.  Returns the conversation id and the updated
state. -/
def resolveQrConv (userId : Nat) (jid phone contactName : String)
    (leadId : Nat) (notify fromMe : Bool) (now messageTimestamp : Nat)
    (s : DBState) : Nat × DBState :=
  match s.conversations.find? (fun c =>
      c.leadId == some leadId && c.whatsappNumberId == userId &&
      c.channel == "whatsapp" && c.whatsappConnectionType == "qr" &&
      c.externalChatId == some jid) with
  | some c =>
    (c.id, { s with conversations := s.conversations.map (fun x =>
      if x.id == c.id then qrMergeConv notify fromMe now messageTimestamp x else x) })
  | none =>
    let newConv : Conversation :=
      { id := s.nextConvId
        channel := "whatsapp"
        whatsappNumberId := userId
        whatsappConnectionType := "qr"
        externalChatId := some jid
        leadId := some leadId
        contactPhone := phone
        contactName := contactName
        unreadCount := if notify ∧ ¬ fromMe then 1 else 0
        lastMessageAt := some messageTimestamp
        status := "active" }
    (newConv.id, { s with conversations := s.conversations ++ [newConv],
                          nextConvId := s.nextConvId + 1 })

/-- The body of the qr handler after the identity and idempotency guards
(message-handler.ts lines 29–181): extract the message fields, resolve
the lead, resolve the conversation, and append the new `chatMessages`
row. -/
def handleValidIncoming (userId : Nat) (m : QrMessage) (jid : String)
    (notify : Bool) (now : Nat) (s : DBState) : DBState :=
  let fromMe := m.key.fromMe
  let messageTimestamp := qrTimestamp m now
  let phoneNumber := qrPhone jid
  let contactName := (truthyOpt m.pushName).getD "Unknown"
  let r1 := resolveLead phoneNumber contactName notify now messageTimestamp s
  let r2 := resolveQrConv userId jid phoneNumber contactName r1.1 notify fromMe
    now messageTimestamp r1.2
  let newMsg : ChatMessage :=
    { conversationId := r2.1
      whatsappNumberId := userId
      whatsappConnectionType := "qr"
      direction := if fromMe then "outbound" else "inbound"
      messageType := qrMsgType m
      content := some (qrText m)
      status := if fromMe then "sent" else "delivered"
      whatsappMessageId := some m.key.id
      deliveredAt := if fromMe then none else some messageTimestamp
      sentAt := some messageTimestamp }
  { r2.2 with chatMessages := r2.2.chatMessages ++ [newMsg] }

/-- Embedding of `MessageHandler.handleIncomingMessage` (message-handler.ts
lines 7–186).  `userId` is the connected number id, `notify` is
`upsertType === 'notify'` (the `'append' | 'notify'` union), `now` is
wall-clock milliseconds.  Control flow: drop messages with a missing,
empty, `status@broadcast` or `@lid` identity; skip when a `chatMessages`
row with the same provider id already exists under connection type `qr`;
otherwise run `handleValidIncoming`. -/
def handleIncomingMessage (userId : Nat) (m : QrMessage) (notify : Bool)
    (now : Nat) (s : DBState) : DBState :=
  match m.key.remoteJid with
  | none => s
  | some jid =>
    if jid = "" ∨ strIncludes jid "status@broadcast" ∨ strIncludes jid "@lid" then s
    else if qrDup s m.key.id then s
    else handleValidIncoming userId m jid notify now s

/-! ## Concrete fixtures -/

/-- An empty database. -/
def emptyDB : DBState :=
  { leads := [], conversations := [], chatMessages := [], pipelines := []
    pipelineStages := [], campaignRecipients := [], campaigns := []
    whatsappConnections := [], nextLeadId := 1, nextConvId := 1 }

/-- A status event for provider message id `m1`. -/
def mkStatus (st : String) : StatusEvent :=
  { id := some "m1", status := some st }

/-- An outbound api message row with provider id `m1`, freshly sent. -/
def sentMsgFix : ChatMessage :=
  { conversationId := 1, whatsappNumberId := 1, whatsappConnectionType := "api"
    direction := "outbound", messageType := "text", content := some "hi"
    status := "sent", whatsappMessageId := some "m1" }

/-- A database holding just `sentMsgFix`. -/
def dbStatusFix : DBState := { emptyDB with chatMessages := [sentMsgFix] }

/-- A raw webhook text message with provider id `W1`. -/
def apiMsgFix : ApiMessage :=
  { type := some "text", id := some "W1", from? := some "555", textBody := some "hi" }

/-- A webhook change carrying exactly `apiMsgFix` and no statuses. -/
def changeFix : ChangeValue :=
  { phoneNumberId := some "PN", messages := [apiMsgFix], contactWaId := some "555" }

/-- A database with one connected number routed from phone-number-id `PN`. -/
def dbApiFix : DBState :=
  { emptyDB with whatsappConnections := [{ phoneNumberId := "PN", whatsappNumberId := 7 }] }

/-- An archived `api` conversation for contact `555`. -/
def archConvFix : Conversation :=
  { id := 1, channel := "whatsapp", whatsappNumberId := 7
    whatsappConnectionType := "api", externalChatId := none
    leadId := none, contactPhone := "555", contactName := none
    unreadCount := 0, lastMessageAt := none, status := "archived" }

/-- The `dbApiFix` database with an archived conversation for contact `555`. -/
def dbArchivedFix : DBState :=
  { dbApiFix with conversations := [archConvFix], nextConvId := 2 }

/-- A raw QR-bridge text message with provider id `M1`. -/
def qrMsgFix : QrMessage :=
  { key := { remoteJid := some "555@s.whatsapp.net", fromMe := false, id := "M1" }
    message := some { conversation := some "hola" }
    messageTimestamp := some 1700000000, pushName := some "Bob" }

/-- A second raw QR-bridge text message from the same phone number
(`555`, via a different jid suffix) with a distinct provider id `M3`. -/
def qrMsgFix2 : QrMessage :=
  { key := { remoteJid := some "555@c.us", fromMe := false, id := "M3" }
    message := some { conversation := some "segunda" }
    messageTimestamp := some 1700000100, pushName := some "Bob" }

/-- A raw QR-bridge message of unrecognized type (none of the recognized
content fields present), with provider id `M2` and serialized payload
`RAW`. -/
def qrUnknownFix : QrMessage :=
  { key := { remoteJid := some "555@s.whatsapp.net", fromMe := false, id := "M2" }
    message := some {}, rawJson := "RAW" }

/-- A database with a default pipeline whose first stage is empty. -/
def dbEmptyStageFix : DBState :=
  { emptyDB with
    pipelines := [{ id := 1, isDefault := true }]
    pipelineStages := [{ id := 10, pipelineId := 1, order := 0 }] }

/-- A database with one pending campaign recipient linked to provider
message id `m1` and its parent campaign with zeroed counters. -/
def dbCampaignFix : DBState :=
  { emptyDB with
    campaignRecipients := [{ id := 1, campaignId := 3
                             whatsappMessageId := some "m1", status := some "pending" }]
    campaigns := [{ id := 3, messagesDelivered := 0, messagesRead := 0, messagesFailed := 0 }] }

/-! ## Structural lemmas about the embedded operations -/

lemma insertApiMessages_eq (now : Nat) (wnid cid : Nat) (ms : List ApiMessage)
    (s : DBState) :
    insertApiMessages now wnid cid ms s =
      { s with chatMessages := s.chatMessages ++ ms.map (normalizeApiMessage now wnid cid) } := by
  induction ms generalizing s with
  | nil => simp [insertApiMessages]
  | cons m ms ih =>
    simp only [insertApiMessages, List.foldl_cons] at *
    rw [ih]
    simp

lemma resolveLead_found (phone cn : String) (n : Bool) (now ts : Nat)
    (s : DBState) (l : Lead)
    (h : s.leads.find? (fun x => x.phone == phone) = some l) :
    resolveLead phone cn n now ts s =
      (l.id, if n then
        { s with leads := s.leads.map (fun x =>
            if x.id == l.id then { x with lastContactedAt := some now } else x) }
      else s) := by
  unfold resolveLead
  rw [h]
  cases n <;> rfl

lemma resolveLead_notFound (phone cn : String) (n : Bool) (now ts : Nat)
    (s : DBState)
    (h : s.leads.find? (fun x => x.phone == phone) = none) :
    resolveLead phone cn n now ts s =
      (s.nextLeadId,
       { s with
         leads := s.leads ++
           [{ id := s.nextLeadId
              name := if cn ≠ "Unknown" then cn else phone
              phone := phone
              country := "Unknown"
              pipelineStageId := (defaultStagePlacement s).1
              kanbanOrder := (defaultStagePlacement s).2
              source := "whatsapp_inbound"
              lastContactedAt := some ts }]
         nextLeadId := s.nextLeadId + 1 }) := by
  unfold resolveLead
  rw [h]

lemma resolveLead_chatMessages (phone cn : String) (n : Bool) (now ts : Nat)
    (s : DBState) :
    (resolveLead phone cn n now ts s).2.chatMessages = s.chatMessages := by
  unfold resolveLead
  split
  · split <;> rfl
  · rfl

lemma resolveLead_conversations (phone cn : String) (n : Bool) (now ts : Nat)
    (s : DBState) :
    (resolveLead phone cn n now ts s).2.conversations = s.conversations := by
  unfold resolveLead
  split
  · split <;> rfl
  · rfl

lemma resolveQrConv_chatMessages (u : Nat) (jid phone cn : String)
    (leadId : Nat) (n fm : Bool) (now ts : Nat) (s : DBState) :
    (resolveQrConv u jid phone cn leadId n fm now ts s).2.chatMessages = s.chatMessages := by
  unfold resolveQrConv
  split <;> rfl

lemma resolveQrConv_leads (u : Nat) (jid phone cn : String)
    (leadId : Nat) (n fm : Bool) (now ts : Nat) (s : DBState) :
    (resolveQrConv u jid phone cn leadId n fm now ts s).2.leads = s.leads := by
  unfold resolveQrConv
  split <;> rfl

/-- Discharge of the identity and idempotency guards: on a valid,
not-yet-seen message the handler runs its main body. -/
lemma handleIncomingMessage_valid (u : Nat) (m : QrMessage) (n : Bool)
    (now : Nat) (s : DBState) (jid : String)
    (hjid : m.key.remoteJid = some jid) (hne : jid ≠ "")
    (hb : strIncludes jid "status@broadcast" = false)
    (hl : strIncludes jid "@lid" = false)
    (hdup : qrDup s m.key.id = false) :
    handleIncomingMessage u m n now s = handleValidIncoming u m jid n now s := by
  unfold handleIncomingMessage
  rw [hjid]
  simp [hne, hb, hl, hdup]

/-- The handler's effect on `chatMessages`: exactly one appended row,
carrying the provider message id under connection type `qr`. -/
lemma handleValidIncoming_chatMessages (u : Nat) (m : QrMessage)
    (jid : String) (n : Bool) (now : Nat) (s : DBState) :
    (handleValidIncoming u m jid n now s).chatMessages =
      s.chatMessages ++
        [{ conversationId :=
             (resolveQrConv u jid (qrPhone jid) ((truthyOpt m.pushName).getD "Unknown")
               (resolveLead (qrPhone jid) ((truthyOpt m.pushName).getD "Unknown") n now
                 (qrTimestamp m now) s).1 n m.key.fromMe now (qrTimestamp m now)
               (resolveLead (qrPhone jid) ((truthyOpt m.pushName).getD "Unknown") n now
                 (qrTimestamp m now) s).2).1
           whatsappNumberId := u
           whatsappConnectionType := "qr"
           direction := if m.key.fromMe then "outbound" else "inbound"
           messageType := qrMsgType m
           content := some (qrText m)
           status := if m.key.fromMe then "sent" else "delivered"
           whatsappMessageId := some m.key.id
           deliveredAt := if m.key.fromMe then none else some (qrTimestamp m now)
           sentAt := some (qrTimestamp m now) }] := by
  unfold handleValidIncoming
  simp only [resolveQrConv_chatMessages, resolveLead_chatMessages]

/-! ## Claim theorems -/

/-- C9: `verifySignature` is total (a Lean function, the caught
`timingSafeEqual` length exception is modelled as `false`) and:
with no configured app secret (absent or empty, JS falsiness) it returns
`true`; with a secret it returns `false` when the header does not start
with `sha256=` (a missing header reads as `""`), `false` when the raw
body is missing or empty, and otherwise returns `true` exactly when the
header signature equals the HMAC-SHA256 hex digest of the raw body under
the secret — equality of the hex-decoded bytes, as compared by
`timingSafeEqual`, which in particular is `false` for any signature of
the wrong length. -/
theorem C9_verifySignature_spec (hmacHex : String → List Nat → String)
    (secret header : Option String) (rawBody : Option (List Nat)) :
    (truthyOpt secret = none → verifySignature hmacHex secret header rawBody = true) ∧
    (∀ sec, truthyOpt secret = some sec →
      (strStartsWith (header.getD "") "sha256=" = false →
        verifySignature hmacHex secret header rawBody = false) ∧
      (rawBody = none ∨ rawBody = some [] →
        verifySignature hmacHex secret header rawBody = false) ∧
      (∀ raw, strStartsWith (header.getD "") "sha256=" = true → rawBody = some raw →
        raw ≠ [] →
        (verifySignature hmacHex secret header rawBody = true ↔
          hexDecode ((header.getD "").toList.drop "sha256=".toList.length) =
            hexDecode (hmacHex sec raw).toList))) := by
  refine ⟨fun hnone => ?_, fun sec hsec => ⟨fun hsw => ?_, fun hraw => ?_, ?_⟩⟩
  · unfold verifySignature
    rw [hnone]
  · unfold verifySignature
    rw [hsec]
    simp [hsw]
  · unfold verifySignature
    rw [hsec]
    rcases hraw with h | h <;> rw [h] <;>
      by_cases hsw : strStartsWith (header.getD "") "sha256=" <;> simp [hsw]
  · intro raw hsw hbody hne
    unfold verifySignature
    rw [hsec, hbody]
    have hlen : ¬ raw.length = 0 := by simpa using hne
    simp only [hsw, not_true_eq_false, if_false, hlen, ite_false]
    unfold timingSafeEqualModel
    by_cases hl : (hexDecode ((header.getD "").toList.drop "sha256=".toList.length)).length
        = (hexDecode (hmacHex sec raw).toList).length
    · rw [if_pos hl]
      simp only [Option.getD_some]
      exact beq_iff_eq
    · rw [if_neg hl]
      simp only [Option.getD_none]
      constructor
      · intro hb
        exact absurd hb (by simp)
      · intro he
        exact absurd (congrArg List.length he) hl

/-- Witness for C9 at concrete inputs: a matching signature verifies, a
malformed header is rejected. -/
theorem C9_witness :
    verifySignature (fun _ _ => "ab") (some "sec") (some "sha256=ab") (some [1]) = true ∧
    verifySignature (fun _ _ => "ab") (some "sec") (some "nope") (some [1]) = false := by
  constructor
  · exact (((C9_verifySignature_spec (fun _ _ => "ab") (some "sec") (some "sha256=ab")
      (some [1])).2 "sec" (by decide)).2.2 [1] (by decide) rfl (by decide)).mpr (by decide)
  · exact (((C9_verifySignature_spec (fun _ _ => "ab") (some "sec") (some "nope")
      (some [1])).2 "sec" (by decide)).1 (by decide))

/-- C8: a QR-bridge message whose remote identity contains
`status@broadcast` or `@lid` is dropped before any lookup or write: the
handler returns the state unchanged (so leads, conversations and
chatMessages are exactly unchanged). -/
theorem C8_broadcast_filtered (u : Nat) (m : QrMessage) (n : Bool) (now : Nat)
    (s : DBState) (jid : String) (hjid : m.key.remoteJid = some jid)
    (h : strIncludes jid "status@broadcast" = true ∨ strIncludes jid "@lid" = true) :
    handleIncomingMessage u m n now s = s := by
  unfold handleIncomingMessage
  rw [hjid]
  rcases h with h | h <;> simp [h]

/-- Witness for C8: a concrete `status@broadcast` message leaves the
empty database untouched. -/
theorem C8_witness :
    handleIncomingMessage 1 { key := { remoteJid := some "status@broadcast", id := "X" } }
      true 0 emptyDB = emptyDB :=
  C8_broadcast_filtered 1 _ true 0 emptyDB "status@broadcast" rfl (Or.inl (by decide))

/-- C2 (code evaluated at the failing input): the webhook status handler
patches `ChatMessage.status` unconditionally, so applying statuses in
the order `read`, `delivered`, `sent` to the message leaves the stored
status at `sent` — a regression; the claim (and the spec's monotonic
design intent) requires it to remain `read`. -/
theorem C2_status_regression :
    ((applyStatusUpdate 7 (mkStatus "sent")
        (applyStatusUpdate 6 (mkStatus "delivered")
          (applyStatusUpdate 5 (mkStatus "read") dbStatusFix))).chatMessages.map
      ChatMessage.status) = ["sent"] ∧ "sent" ≠ "read" := by
  constructor
  · decide
  · decide

/-- C1 counterexample (api path): the webhook POST handler performs no
idempotency check, so redelivering the identical change — same provider
message id `W1`, same connection kind `api` — yields two `ChatMessage`
rows with that id and bumps the conversation's `unreadCount` from 1
(after the first delivery) to 2, where the claim demands one row and an
unchanged unread count. -/
theorem C1_counterexample :
    ((processChange 100 changeFix dbApiFix).conversations.map Conversation.unreadCount = [1]) ∧
    (((processChange 200 changeFix (processChange 100 changeFix dbApiFix)).chatMessages.filter
        (fun c => c.whatsappMessageId == some "W1")).length = 2) ∧
    ((processChange 200 changeFix (processChange 100 changeFix dbApiFix)).conversations.map
        Conversation.unreadCount = [2]) := by
  refine ⟨by decide, by decide, by decide⟩

/-- C1 (amended): idempotent redelivery holds on the qr path.  A valid
(non-broadcast) QR-bridge message not yet present in the ledger is
inserted exactly once: afterwards exactly one `ChatMessage` row carries
its provider id under connection kind `qr`, and redelivering the same
message (any mode, any clock, any number id) returns the state
unchanged — in particular the conversation's `unreadCount` is exactly
as after the first delivery.  (On the api path the claim fails, see the
counterexample.) -/
theorem C1_qr_idempotent (u u2 : Nat) (m : QrMessage) (n n2 : Bool)
    (now now2 : Nat) (s : DBState) (jid : String)
    (hjid : m.key.remoteJid = some jid) (hne : jid ≠ "")
    (hb : strIncludes jid "status@broadcast" = false)
    (hl : strIncludes jid "@lid" = false)
    (hdup : qrDup s m.key.id = false) :
    ((handleIncomingMessage u m n now s).chatMessages.filter (fun cm =>
        cm.whatsappMessageId == some m.key.id &&
        cm.whatsappConnectionType == "qr")).length = 1 ∧
    handleIncomingMessage u2 m n2 now2 (handleIncomingMessage u m n now s) =
      handleIncomingMessage u m n now s := by
  have hmain := handleIncomingMessage_valid u m n now s jid hjid hne hb hl hdup
  have hcm := handleValidIncoming_chatMessages u m jid n now s
  have hfilter : s.chatMessages.filter (fun cm =>
      cm.whatsappMessageId == some m.key.id &&
      cm.whatsappConnectionType == "qr") = [] := by
    rw [List.filter_eq_nil_iff]
    intro a ha
    have := List.any_eq_false.mp hdup a ha
    simpa using this
  constructor
  · rw [hmain, hcm, List.filter_append, hfilter]
    simp
  · rw [hmain]
    conv_lhs => rw [handleIncomingMessage]
    rw [hjid]
    have hdup2 : qrDup (handleValidIncoming u m jid n now s) m.key.id = true := by
      unfold qrDup
      rw [hcm, List.any_append]
      simp
    simp [hne, hb, hl, hdup2]

/-- Witness for C1 at a concrete input: a first delivery into the empty
database stores one row, a redelivery is a no-op. -/
theorem C1_witness :
    ((handleIncomingMessage 7 qrMsgFix true 999 emptyDB).chatMessages.filter (fun cm =>
        cm.whatsappMessageId == some qrMsgFix.key.id &&
        cm.whatsappConnectionType == "qr")).length = 1 ∧
    handleIncomingMessage 7 qrMsgFix false 1234 (handleIncomingMessage 7 qrMsgFix true 999 emptyDB) =
      handleIncomingMessage 7 qrMsgFix true 999 emptyDB :=
  C1_qr_idempotent 7 7 qrMsgFix true false 999 1234 emptyDB "555@s.whatsapp.net"
    rfl (by decide) (by decide) (by decide) (by decide)

/-- C3: campaign counter exactness for a recipient starting at
`pending`, linked to a message by `whatsappMessageId`.  Applying
`delivered` then `read` increments the parent campaign's
`messagesDelivered` exactly once and `messagesRead` exactly once;
applying `read` directly back-fills `messagesDelivered` exactly once and
increments `messagesRead` exactly once; re-applying an already-recorded
status (`delivered` or `read` after both were recorded, or `delivered`
twice) increments no counter. -/
theorem C3_campaign_counter_exactness (msgId : String) (hne : msgId ≠ "")
    (s : DBState) (rec : CampaignRecipient) (camp : Campaign)
    (hrec : s.campaignRecipients = [rec]) (hcamp : s.campaigns = [camp])
    (hlink : rec.whatsappMessageId = some msgId)
    (hpending : rec.status = some "pending") (hcid : rec.campaignId = camp.id)
    (n1 n2 n3 : Nat) :
    ((applyStatusUpdate n2 { id := some msgId, status := some "read" }
        (applyStatusUpdate n1 { id := some msgId, status := some "delivered" } s)).campaigns =
      [{ camp with messagesDelivered := camp.messagesDelivered + 1
                   messagesRead := camp.messagesRead + 1 }]) ∧
    ((applyStatusUpdate n1 { id := some msgId, status := some "read" } s).campaigns =
      [{ camp with messagesDelivered := camp.messagesDelivered + 1
                   messagesRead := camp.messagesRead + 1 }]) ∧
    ((applyStatusUpdate n3 { id := some msgId, status := some "delivered" }
        (applyStatusUpdate n2 { id := some msgId, status := some "read" }
          (applyStatusUpdate n1 { id := some msgId, status := some "delivered" } s))).campaigns =
      (applyStatusUpdate n2 { id := some msgId, status := some "read" }
        (applyStatusUpdate n1 { id := some msgId, status := some "delivered" } s)).campaigns) ∧
    ((applyStatusUpdate n3 { id := some msgId, status := some "read" }
        (applyStatusUpdate n2 { id := some msgId, status := some "read" }
          (applyStatusUpdate n1 { id := some msgId, status := some "delivered" } s))).campaigns =
      (applyStatusUpdate n2 { id := some msgId, status := some "read" }
        (applyStatusUpdate n1 { id := some msgId, status := some "delivered" } s)).campaigns) ∧
    ((applyStatusUpdate n3 { id := some msgId, status := some "delivered" }
        (applyStatusUpdate n1 { id := some msgId, status := some "delivered" } s)).campaigns =
      (applyStatusUpdate n1 { id := some msgId, status := some "delivered" } s).campaigns) := by
  refine ⟨?_, ?_, ?_, ?_, ?_⟩ <;>
    simp [applyStatusUpdate, applyCampaignStatus, statusPatch, hne, hrec, hcamp,
      hlink, hpending, hcid]

/-- Witness for C3 on the concrete fixture with zeroed counters. -/
theorem C3_witness :
    ((applyStatusUpdate 6 { id := some "m1", status := some "read" }
        (applyStatusUpdate 5 { id := some "m1", status := some "delivered" } dbCampaignFix)).campaigns =
      [{ id := 3, messagesDelivered := 1, messagesRead := 1, messagesFailed := 0 }]) ∧
    ((applyStatusUpdate 5 { id := some "m1", status := some "read" } dbCampaignFix).campaigns =
      [{ id := 3, messagesDelivered := 1, messagesRead := 1, messagesFailed := 0 }]) := by
  have h := C3_campaign_counter_exactness "m1" (by decide) dbCampaignFix
    { id := 1, campaignId := 3, whatsappMessageId := some "m1", status := some "pending" }
    { id := 3, messagesDelivered := 0, messagesRead := 0, messagesFailed := 0 }
    rfl rfl rfl rfl rfl 5 6 7
  exact ⟨h.1, h.2.1⟩

/-- C4 counterexample (api path): a live inbound webhook change for an
archived `api` conversation bumps `unreadCount` to 1 and stamps
`lastMessageAt` with wall-clock now — a live inbound merge — yet leaves
`status` at `archived`: the update patch never touches the status
column, so the claimed revive-to-active does not happen. -/
theorem C4_counterexample :
    ((processChange 100 changeFix dbArchivedFix).conversations.map
      (fun c => (c.status, c.unreadCount, c.lastMessageAt))) =
        [("archived", 1, some 100)] ∧ "archived" ≠ "active" := by
  exact ⟨by decide, by decide⟩

/-- C4 (amended): the live/history merge table holds on the qr path —
a live (`notify`) inbound event increments `unreadCount` by 1, sets
`lastMessageAt` to wall-clock now and flips status to `active`; a
history-replay (`append`) event or a `fromMe` outbound event leaves
`unreadCount` and `status` unchanged and moves `lastMessageAt` to
max(current, event timestamp), leaving it unchanged on an older event.
On the api path a live inbound change increments `unreadCount` by 1 and
sets `lastMessageAt` to now, but leaves `status` unchanged (no revive). -/
theorem C4_merge_rules (c : Conversation) (now ts : Nat) (cn : Option String) :
    (qrMergeConv true false now ts c =
      { c with unreadCount := c.unreadCount + 1
               lastMessageAt := some now
               status := "active" }) ∧
    (∀ nf fm : Bool, (nf = false ∨ fm = true) →
      (qrMergeConv nf fm now ts c).unreadCount = c.unreadCount ∧
      (qrMergeConv nf fm now ts c).status = c.status ∧
      (qrMergeConv nf fm now ts c).lastMessageAt =
        some (match c.lastMessageAt with
              | none => ts
              | some t => max t ts)) ∧
    ((apiMergeConv cn now c).unreadCount = c.unreadCount + 1 ∧
     (apiMergeConv cn now c).lastMessageAt = some now ∧
     (apiMergeConv cn now c).status = c.status) := by
  refine ⟨?_, ?_, ?_, ?_, ?_⟩
  · simp [qrMergeConv]
  · intro nf fm h
    have hc1 : ¬ (nf = true ∧ ¬ fm = true) := by
      rcases h with h | h <;> simp [h]
    have hc2 : (¬ nf = true ∨ fm = true) := by
      rcases h with h | h <;> simp [h]
    unfold qrMergeConv
    rw [if_neg hc1, if_pos hc2]
    cases hl : c.lastMessageAt with
    | none => simp
    | some t =>
      by_cases hgt : ts > t
      · have : max t ts = ts := by omega
        simp [hgt, this]
      · have : max t ts = t := by omega
        simp [hgt, this, hl]
  · simp [apiMergeConv]
  · simp [apiMergeConv]
  · simp [apiMergeConv]

/-- Witness for C4 at a concrete conversation: an `append` merge leaves
the unread counter alone, the api merge leaves the status alone. -/
theorem C4_witness :
    (qrMergeConv false false 50 40 archConvFix).unreadCount = archConvFix.unreadCount ∧
    (apiMergeConv none 50 archConvFix).status = archConvFix.status :=
  ⟨((C4_merge_rules archConvFix 50 40 none).2.1 false false (Or.inl rfl)).1,
   (C4_merge_rules archConvFix 50 40 none).2.2.2.2⟩

/-- C10: on the api path the conversation update runs once per webhook
change, before the per-message loop, and the loop never touches
`unreadCount`: for a change carrying N messages (no statuses), N
`ChatMessage` rows are inserted while the conversation's `unreadCount`
is seeded to 1 on first contact, or incremented by exactly 1 (with
status untouched) when the conversation already exists. -/
theorem C10_unread_once_per_change (now : Nat) (v : ChangeValue) (s : DBState)
    (pid : String) (conn : WhatsappConnection) (cp : String)
    (hpid : v.phoneNumberId = some pid)
    (hconn : s.whatsappConnections.find? (fun c => c.phoneNumberId == pid) = some conn)
    (hst : v.statuses = [])
    (hmsg : v.messages ≠ [])
    (hcp : ((v.contactWaId).or ((v.messages.head?).bind ApiMessage.from?)).getD "" = cp)
    (hcpne : cp ≠ "") :
    (s.conversations = [] →
      (processChange now v s).conversations.map Conversation.unreadCount = [1] ∧
      (processChange now v s).chatMessages.length =
        s.chatMessages.length + v.messages.length) ∧
    (∀ c : Conversation, s.conversations = [c] →
      c.whatsappNumberId = conn.whatsappNumberId → c.contactPhone = cp →
      (processChange now v s).conversations.map Conversation.unreadCount =
        [c.unreadCount + 1] ∧
      (processChange now v s).conversations.map Conversation.status = [c.status] ∧
      (processChange now v s).chatMessages.length =
        s.chatMessages.length + v.messages.length) := by
  have hlen : v.messages.length > 0 := List.length_pos.mpr hmsg
  have hpc : processChange now v s = processIncomingMessages now conn.whatsappNumberId v s := by
    unfold processChange
    simp only [hpid, hconn, hst]
    simp [hlen]
  constructor
  · intro hempty
    rw [hpc]
    unfold processIncomingMessages
    simp only [hcp, hcpne, if_false, hempty, List.find?_nil, insertApiMessages_eq]
    simp [List.length_map]
  · intro c hconv hw hphone
    rw [hpc]
    unfold processIncomingMessages
    have hpred : (fun x : Conversation =>
        x.whatsappNumberId == conn.whatsappNumberId && x.contactPhone == cp) c = true := by
      simp [hw, hphone]
    simp only [hcp, hcpne, if_false, hconv, List.find?_cons, hpred, insertApiMessages_eq]
    simp [apiMergeConv, List.length_map]

/-- Witness for C10: a one-message change seeds a fresh conversation at
unread 1, and bumps an existing (archived) conversation by exactly 1
without touching its status, inserting one message row each time. -/
theorem C10_witness :
    ((processChange 100 changeFix dbApiFix).conversations.map Conversation.unreadCount = [1] ∧
     (processChange 100 changeFix dbApiFix).chatMessages.length =
       dbApiFix.chatMessages.length + changeFix.messages.length) ∧
    ((processChange 100 changeFix dbArchivedFix).conversations.map Conversation.unreadCount =
       [archConvFix.unreadCount + 1] ∧
     (processChange 100 changeFix dbArchivedFix).conversations.map Conversation.status =
       [archConvFix.status] ∧
     (processChange 100 changeFix dbArchivedFix).chatMessages.length =
       dbArchivedFix.chatMessages.length + changeFix.messages.length) :=
  ⟨(C10_unread_once_per_change 100 changeFix dbApiFix "PN"
      { phoneNumberId := "PN", whatsappNumberId := 7 } "555"
      rfl (by decide) rfl (by decide) (by decide) (by decide)).1 rfl,
   (C10_unread_once_per_change 100 changeFix dbArchivedFix "PN"
      { phoneNumberId := "PN", whatsappNumberId := 7 } "555"
      rfl (by decide) rfl (by decide) (by decide) (by decide)).2 archConvFix rfl rfl rfl⟩

lemma maxKanban_foldl_acc (ls : List Lead) :
    ∀ (v : Int), ∃ M, ls.foldl maxKanbanStep (some v) = some M ∧ v ≤ M := by
  induction ls with
  | nil => intro v; exact ⟨v, rfl, le_refl v⟩
  | cons a ls ih =>
    intro v
    rcases ih (max v a.kanbanOrder) with ⟨M, hM, hle⟩
    exact ⟨M, by simpa [maxKanbanStep] using hM, le_trans (le_max_left _ _) hle⟩

lemma maxKanban_foldl_mem (ls : List Lead) :
    ∀ (acc : Option Int) (x : Lead), x ∈ ls →
      ∃ M, ls.foldl maxKanbanStep acc = some M ∧ x.kanbanOrder ≤ M := by
  induction ls with
  | nil => intro _ x hx; cases hx
  | cons a ls ih =>
    intro acc x hx
    rcases List.mem_cons.mp hx with rfl | hx
    · cases acc with
      | none =>
        rcases maxKanban_foldl_acc ls x.kanbanOrder with ⟨M, hM, hle⟩
        exact ⟨M, by simpa [maxKanbanStep] using hM, hle⟩
      | some m =>
        rcases maxKanban_foldl_acc ls (max m x.kanbanOrder) with ⟨M, hM, hle⟩
        exact ⟨M, by simpa [maxKanbanStep] using hM,
          le_trans (le_max_right _ _) hle⟩
    · exact ih (maxKanbanStep acc a) x hx

lemma maxKanban_mem_le (ls : List Lead) (x : Lead) (hx : x ∈ ls) :
    ∃ M, maxKanban ls = some M ∧ x.kanbanOrder ≤ M :=
  maxKanban_foldl_mem ls none x hx

lemma handleValidIncoming_leads (u : Nat) (m : QrMessage) (jid : String)
    (n : Bool) (now : Nat) (s : DBState) :
    (handleValidIncoming u m jid n now s).leads =
      (resolveLead (qrPhone jid) ((truthyOpt m.pushName).getD "Unknown") n now
        (qrTimestamp m now) s).2.leads := by
  unfold handleValidIncoming
  simp only [resolveQrConv_leads]

/-- C6 counterexample: with a default pipeline whose first stage holds no
leads, the created lead gets kanban order `(max ?? 0) + 1 = 1`, not the
claimed 0. -/
theorem C6_counterexample :
    defaultStagePlacement dbEmptyStageFix = (some 10, 1) ∧
    ((handleIncomingMessage 7 qrMsgFix true 999 dbEmptyStageFix).leads.map
      (fun l => (l.pipelineStageId, l.kanbanOrder))) = [(some 10, 1)] ∧
    (1 : Int) ≠ 0 := by
  refine ⟨by decide, by decide, by decide⟩

/-- C6 (amended): the new lead's placement is `(max(kanbanOrder)
coalesced to 0) + 1` over the leads already in the first stage (by
explicit order) of the default pipeline — strictly above every existing
order, and `1` when that stage is empty; it is `(null, 0)` when no
default pipeline is configured or the default pipeline has no stages,
and the lead is still created in that case, with a null
`pipelineStageId`. -/
theorem C6_kanban_placement (s : DBState) :
    (s.pipelines.find? (fun p => p.isDefault) = none →
      defaultStagePlacement s = (none, 0)) ∧
    (∀ p, s.pipelines.find? (fun p => p.isDefault) = some p →
      (firstStageByOrder (s.pipelineStages.filter (fun st => st.pipelineId == p.id)) = none →
        defaultStagePlacement s = (none, 0)) ∧
      (∀ st, firstStageByOrder (s.pipelineStages.filter (fun st => st.pipelineId == p.id)) = some st →
        (s.leads.filter (fun l => l.pipelineStageId == some st.id) = [] →
          defaultStagePlacement s = (some st.id, 1)) ∧
        ((defaultStagePlacement s).1 = some st.id ∧
         ∀ l ∈ s.leads, l.pipelineStageId = some st.id →
           l.kanbanOrder < (defaultStagePlacement s).2))) ∧
    (∀ (u : Nat) (m : QrMessage) (n : Bool) (now : Nat) (jid : String),
      m.key.remoteJid = some jid → jid ≠ "" →
      strIncludes jid "status@broadcast" = false →
      strIncludes jid "@lid" = false →
      qrDup s m.key.id = false →
      s.leads.find? (fun l => l.phone == qrPhone jid) = none →
      (handleIncomingMessage u m n now s).leads =
        s.leads ++
          [{ id := s.nextLeadId
             name := if ((truthyOpt m.pushName).getD "Unknown") ≠ "Unknown"
                     then (truthyOpt m.pushName).getD "Unknown" else qrPhone jid
             phone := qrPhone jid
             country := "Unknown"
             pipelineStageId := (defaultStagePlacement s).1
             kanbanOrder := (defaultStagePlacement s).2
             source := "whatsapp_inbound"
             lastContactedAt := some (qrTimestamp m now) }]) := by
  refine ⟨fun h => ?_, fun p hp => ⟨fun hst => ?_, fun st hst => ⟨fun hempty => ?_, ?_, ?_⟩⟩,
    fun u m n now jid hjid hne hb hl hdup hfind => ?_⟩
  · unfold defaultStagePlacement
    rw [h]
  · unfold defaultStagePlacement
    simp only [hp, hst]
  · unfold defaultStagePlacement
    simp only [hp, hst, hempty]
    simp [maxKanban]
  · unfold defaultStagePlacement
    simp only [hp, hst]
  · intro l hl hstage
    have hmem : l ∈ s.leads.filter (fun l => l.pipelineStageId == some st.id) := by
      rw [List.mem_filter]
      exact ⟨hl, by simp [hstage]⟩
    rcases maxKanban_mem_le _ l hmem with ⟨M, hM, hle⟩
    unfold defaultStagePlacement
    simp only [hp, hst, hM, Option.getD_some]
    omega
  · rw [handleIncomingMessage_valid u m n now s jid hjid hne hb hl hdup,
      handleValidIncoming_leads,
      resolveLead_notFound _ _ _ _ _ _ hfind]

/-- Witness for C6: on the empty-stage fixture the placement is
`(some 10, 1)` and the handler still creates the lead with it. -/
theorem C6_witness :
    defaultStagePlacement dbEmptyStageFix = (some 10, 1) ∧
    (handleIncomingMessage 7 qrMsgFix true 999 dbEmptyStageFix).leads =
      dbEmptyStageFix.leads ++
        [{ id := 1, name := "Bob", phone := "+555", country := "Unknown"
           pipelineStageId := some 10, kanbanOrder := 1
           source := "whatsapp_inbound", lastContactedAt := some 1700000000000 }] :=
  by
  refine ⟨(((C6_kanban_placement dbEmptyStageFix).2.1 { id := 1, isDefault := true } rfl).2
      { id := 10, pipelineId := 1, order := 0 } rfl).1 rfl, ?_⟩
  have h2 := (C6_kanban_placement dbEmptyStageFix).2.2 7 qrMsgFix true 999 "555@s.whatsapp.net"
    rfl (by decide) (by decide) (by decide) rfl rfl
  rw [h2]
  decide

/-- C7 counterexample (qr path): a QR-bridge message with no recognized
content field is stored as `text`, but its content is the fixed
placeholder `"Media/Unknown"`, not the serialized raw payload (`"RAW"`
for this fixture). -/
theorem C7_counterexample :
    ((handleIncomingMessage 7 qrUnknownFix true 999 emptyDB).chatMessages.map
      (fun c => (c.messageType, c.content))) = [("text", some "Media/Unknown")] ∧
    some "Media/Unknown" ≠ some qrUnknownFix.rawJson := by
  exact ⟨by decide, by decide⟩

/-- C7 (amended): an unrecognized-type inbound content event is stored
as `messageType text` and never dropped on both paths; on the
cloud-webhook path its content is the serialized raw payload, while on
the QR-bridge path its content is the `"Media/Unknown"` placeholder
(the caption/body `||` cascade exhausted), not a serialization. -/
theorem C7_unknown_type_fallback :
    (∀ (now wnid cid : Nat) (m : ApiMessage) (ty : String), m.type = some ty →
      ty ≠ "text" → ty ≠ "image" → ty ≠ "video" → ty ≠ "audio" → ty ≠ "document" →
      ty ≠ "sticker" → ty ≠ "location" → ty ≠ "contacts" →
      (normalizeApiMessage now wnid cid m).messageType = "text" ∧
      (normalizeApiMessage now wnid cid m).content = some m.rawJson) ∧
    (∀ (now wnid cid : Nat) (ms : List ApiMessage) (s : DBState),
      (insertApiMessages now wnid cid ms s).chatMessages.length =
        s.chatMessages.length + ms.length) ∧
    (∀ (u : Nat) (m : QrMessage) (c : QrContent) (n : Bool) (now : Nat)
        (s : DBState) (jid : String),
      m.message = some c →
      truthyOpt c.conversation = none →
      truthyOpt c.extendedTextMessageText = none →
      c.imageMessage = none → c.videoMessage = none →
      c.audioMessage = false → c.documentMessage = false → c.stickerMessage = false →
      m.key.remoteJid = some jid → jid ≠ "" →
      strIncludes jid "status@broadcast" = false →
      strIncludes jid "@lid" = false →
      qrDup s m.key.id = false →
      qrMsgType m = "text" ∧ qrText m = "Media/Unknown" ∧
      ∃ nm : ChatMessage,
        (handleIncomingMessage u m n now s).chatMessages = s.chatMessages ++ [nm] ∧
        nm.messageType = "text" ∧ nm.content = some "Media/Unknown") := by
  refine ⟨?_, ?_, ?_⟩
  · intro now wnid cid m ty hty h1 h2 h3 h4 h5 h6 h7 h8
    unfold normalizeApiMessage
    simp [hty, h1, h2, h3, h4, h5, h6, h7, h8]
  · intro now wnid cid ms s
    rw [insertApiMessages_eq]
    simp
  · intro u m c n now s jid hm hconv hext himg hvid haud hdoc hstk hjid hne hb hl hdup
    have htype : qrMsgType m = "text" := by
      unfold qrMsgType
      rw [hm]
      simp [himg, hvid, haud, hdoc, hstk]
    have htext : qrText m = "Media/Unknown" := by
      unfold qrText
      rw [hm]
      simp only [hconv, hext, himg, hvid, haud, hdoc, hstk]
      simp [truthyOpt]
    refine ⟨htype, htext, ?_⟩
    rw [handleIncomingMessage_valid u m n now s jid hjid hne hb hl hdup]
    refine ⟨_, handleValidIncoming_chatMessages u m jid n now s, ?_, ?_⟩
    · exact htype
    · simp [htext]

/-- Witness for C7: a concrete unrecognized webhook message falls back
to text with the serialized payload, and the concrete unrecognized
QR-bridge fixture falls back to the placeholder. -/
theorem C7_witness :
    ((normalizeApiMessage 1 2 3 { type := some "reaction", rawJson := "R" }).messageType = "text" ∧
     (normalizeApiMessage 1 2 3 { type := some "reaction", rawJson := "R" }).content = some "R") ∧
    (qrMsgType qrUnknownFix = "text" ∧ qrText qrUnknownFix = "Media/Unknown") := by
  refine ⟨?_, ?_⟩
  · have h := (C7_unknown_type_fallback).1 1 2 3 { type := some "reaction", rawJson := "R" }
      "reaction" rfl (by decide) (by decide) (by decide) (by decide) (by decide)
      (by decide) (by decide) (by decide)
    exact h
  · have h := (C7_unknown_type_fallback).2.2 7 qrUnknownFix {} true 999 emptyDB
      "555@s.whatsapp.net" rfl rfl rfl rfl rfl rfl rfl rfl rfl (by decide) (by decide)
      (by decide) (by decide)
    exact ⟨h.1, h.2.1⟩

lemma find?_append_of_none {α : Type} (p : α → Bool) (l1 l2 : List α)
    (h : l1.find? p = none) : (l1 ++ l2).find? p = l2.find? p := by
  induction l1 with
  | nil => simp
  | cons a l1 ih =>
    cases hpa : p a with
    | true =>
      rw [List.find?_cons_of_pos _ hpa] at h
      cases h
    | false =>
      rw [List.find?_cons_of_neg _ (by simp [hpa])] at h
      rw [List.cons_append, List.find?_cons_of_neg _ (by simp [hpa])]
      exact ih h

/-- C5: lead resolution deduplicates by phone.  Starting with no lead
for phone `p`, two valid inbound QR messages extracting that phone (with
distinct provider ids, so the second is not discarded as a duplicate)
leave exactly one lead with phone `p`; the second message bumps only
`lastContactedAt` (to wall-clock now) when it is a live `notify` event,
and changes nothing on the lead when it is a history `append` event. -/
theorem C5_lead_dedup (u1 u2 : Nat) (m1 m2 : QrMessage) (n1 : Bool) (n2 : Bool)
    (now1 now2 : Nat) (s : DBState) (jid1 jid2 p : String)
    (hj1 : m1.key.remoteJid = some jid1) (hj1ne : jid1 ≠ "")
    (hb1 : strIncludes jid1 "status@broadcast" = false)
    (hl1 : strIncludes jid1 "@lid" = false)
    (hj2 : m2.key.remoteJid = some jid2) (hj2ne : jid2 ≠ "")
    (hb2 : strIncludes jid2 "status@broadcast" = false)
    (hl2 : strIncludes jid2 "@lid" = false)
    (hp1 : qrPhone jid1 = p) (hp2 : qrPhone jid2 = p)
    (hnolead : ∀ l ∈ s.leads, l.phone ≠ p)
    (hfresh : ∀ l ∈ s.leads, l.id ≠ s.nextLeadId)
    (hdup1 : qrDup s m1.key.id = false)
    (hdup2 : qrDup s m2.key.id = false)
    (hne12 : m2.key.id ≠ m1.key.id) :
    ∃ nl : Lead,
      (handleIncomingMessage u1 m1 n1 now1 s).leads = s.leads ++ [nl] ∧
      nl.phone = p ∧
      (((handleIncomingMessage u2 m2 n2 now2
          (handleIncomingMessage u1 m1 n1 now1 s)).leads.filter
            (fun l => l.phone == p)).length = 1) ∧
      (n2 = true →
        (handleIncomingMessage u2 m2 n2 now2 (handleIncomingMessage u1 m1 n1 now1 s)).leads =
          s.leads ++ [{ nl with lastContactedAt := some now2 }]) ∧
      (n2 = false →
        (handleIncomingMessage u2 m2 n2 now2 (handleIncomingMessage u1 m1 n1 now1 s)).leads =
          s.leads ++ [nl]) := by
  -- first delivery: no lead for the phone, so one is created
  have hfind1 : s.leads.find? (fun l => l.phone == qrPhone jid1) = none := by
    rw [List.find?_eq_none]
    intro l hl
    simp only [hp1, beq_iff_eq]
    exact hnolead l hl
  have h1 := handleIncomingMessage_valid u1 m1 n1 now1 s jid1 hj1 hj1ne hb1 hl1 hdup1
  have h1leads : (handleIncomingMessage u1 m1 n1 now1 s).leads =
      s.leads ++
        [{ id := s.nextLeadId
           name := if ((truthyOpt m1.pushName).getD "Unknown") ≠ "Unknown"
                   then (truthyOpt m1.pushName).getD "Unknown" else qrPhone jid1
           phone := qrPhone jid1
           country := "Unknown"
           pipelineStageId := (defaultStagePlacement s).1
           kanbanOrder := (defaultStagePlacement s).2
           source := "whatsapp_inbound"
           lastContactedAt := some (qrTimestamp m1 now1) }] := by
    rw [h1, handleValidIncoming_leads, resolveLead_notFound _ _ _ _ _ _ hfind1]
  set nl : Lead :=
    { id := s.nextLeadId
      name := if ((truthyOpt m1.pushName).getD "Unknown") ≠ "Unknown"
              then (truthyOpt m1.pushName).getD "Unknown" else qrPhone jid1
      phone := qrPhone jid1
      country := "Unknown"
      pipelineStageId := (defaultStagePlacement s).1
      kanbanOrder := (defaultStagePlacement s).2
      source := "whatsapp_inbound"
      lastContactedAt := some (qrTimestamp m1 now1) } with hnl
  have hnlphone : nl.phone = p := hp1
  have hnlid : nl.id = s.nextLeadId := rfl
  -- the second delivery is not discarded: different provider id
  have h1cm := handleValidIncoming_chatMessages u1 m1 jid1 n1 now1 s
  have hdup2' : qrDup (handleIncomingMessage u1 m1 n1 now1 s) m2.key.id = false := by
    unfold qrDup at hdup2 ⊢
    rw [h1, h1cm, List.any_append, hdup2]
    simp [Ne.symm hne12]
  have h2 := handleIncomingMessage_valid u2 m2 n2 now2 _ jid2 hj2 hj2ne hb2 hl2 hdup2'
  -- the second delivery finds the created lead
  have hfindold2 : s.leads.find? (fun l => l.phone == qrPhone jid2) = none := by
    rw [List.find?_eq_none]
    intro l hl
    simp only [hp2, beq_iff_eq]
    exact hnolead l hl
  have hfind2 : (handleIncomingMessage u1 m1 n1 now1 s).leads.find?
      (fun l => l.phone == qrPhone jid2) = some nl := by
    rw [h1leads, find?_append_of_none _ _ _ hfindold2]
    simp [List.find?, hp1, hp2]
  have h2leads := handleValidIncoming_leads u2 m2 jid2 n2 now2
    (handleIncomingMessage u1 m1 n1 now1 s)
  have h2res := resolveLead_found (qrPhone jid2) ((truthyOpt m2.pushName).getD "Unknown")
    n2 now2 (qrTimestamp m2 now2) (handleIncomingMessage u1 m1 n1 now1 s) nl hfind2
  -- the map over the old leads is the identity: their ids are fresh
  have hmapold : s.leads.map (fun x => if x.id == nl.id
      then { x with lastContactedAt := some now2 } else x) = s.leads := by
    conv_rhs => rw [← List.map_id s.leads]
    refine List.map_congr_left ?_
    intro l hl
    have hid : (l.id == nl.id) = false := by
      simp only [hnlid, beq_eq_false_iff_ne, ne_eq]
      exact hfresh l hl
    simp [hid]
  have h2true : n2 = true →
      (handleIncomingMessage u2 m2 n2 now2 (handleIncomingMessage u1 m1 n1 now1 s)).leads =
        s.leads ++ [{ nl with lastContactedAt := some now2 }] := by
    intro hn2
    subst hn2
    rw [h2, h2leads, h2res]
    simp only [if_pos rfl]
    rw [h1leads, List.map_append, hmapold]
    simp
  have h2false : n2 = false →
      (handleIncomingMessage u2 m2 n2 now2 (handleIncomingMessage u1 m1 n1 now1 s)).leads =
        s.leads ++ [nl] := by
    intro hn2
    subst hn2
    rw [h2, h2leads, h2res]
    simp only [Bool.false_eq_true, if_false]
    exact h1leads
  have hfnil : s.leads.filter (fun l => l.phone == p) = [] := by
    rw [List.filter_eq_nil_iff]
    intro l hl
    simp only [beq_iff_eq]
    exact hnolead l hl
  refine ⟨nl, h1leads, hnlphone, ?_, h2true, h2false⟩
  rcases Bool.eq_false_or_eq_true n2 with hn2 | hn2
  · rw [h2true hn2, List.filter_append, hfnil]
    simp [hnlphone, hp1]
  · rw [h2false hn2, List.filter_append, hfnil]
    simp [hnlphone, hp1]

/-- Witness for C5: two concrete messages from phone `+555` with
distinct provider ids, starting from the empty database; the second is
a live `notify` event. -/
theorem C5_witness :
    ∃ nl : Lead,
      (handleIncomingMessage 7 qrMsgFix true 999 emptyDB).leads = emptyDB.leads ++ [nl] ∧
      nl.phone = "+555" ∧
      (((handleIncomingMessage 8 qrMsgFix2 true 2000
          (handleIncomingMessage 7 qrMsgFix true 999 emptyDB)).leads.filter
            (fun l => l.phone == "+555")).length = 1) ∧
      (true = true →
        (handleIncomingMessage 8 qrMsgFix2 true 2000
          (handleIncomingMessage 7 qrMsgFix true 999 emptyDB)).leads =
            emptyDB.leads ++ [{ nl with lastContactedAt := some 2000 }]) ∧
      (true = false →
        (handleIncomingMessage 8 qrMsgFix2 true 2000
          (handleIncomingMessage 7 qrMsgFix true 999 emptyDB)).leads =
            emptyDB.leads ++ [nl]) :=
  C5_lead_dedup 7 8 qrMsgFix qrMsgFix2 true true 999 2000 emptyDB
    "555@s.whatsapp.net" "555@c.us" "+555"
    rfl (by decide) (by decide) (by decide)
    rfl (by decide) (by decide) (by decide)
    (by decide) (by decide)
    (by decide) (by decide)
    (by decide) (by decide) (by decide)
